import Mathlib

/-!
# Verification of the model-hub-cli metric pipeline

A shallow embedding of the metric-scoring subsystem of the repository:
the individual metrics (`AvailabilityMetric`, `RampUpMetric`,
`ReproducibilityMetric`, `ReviewednessMetric`, `TreeScoreMetric`), the
flat-file artifact store, and the service-side reviewedness fetcher.

Scores are represented as rationals (`ℚ`); Python floats carry exact
decimal constants here (0.5 = 1/2, 0.7 = 7/10, ...).  External effects
(network responses, subprocess outcomes, git clones, the LLM client) are
passed in explicitly as environment values, so every embedded operation
is a total function of the artifact snapshot and its environment.

The `ModelData` class, the metadata fetchers and the `LLMClient` are not
part of the sources being verified; their shapes are modelled from the
specification (typed metadata snapshots harvested from the platform
APIs).
-/

namespace ModelHub

/-- JSON-like values, as harvested from the HuggingFace / GitHub APIs and
as stored in the artifact files.  Objects are association lists; `find?`
returns the first binding, matching a JSON object without duplicate
keys. -/
inductive JVal where
  | null
  | bool (b : Bool)
  | num (q : ℚ)
  | str (s : String)
  | arr (xs : List JVal)
  | obj (kvs : List (String × JVal))
deriving Repr

/-- Python truthiness of a JSON value (`bool(v)`): `None`, `False`, `0`,
`""`, `[]` and an empty dict are falsy. -/
def JVal.truthy : JVal → Bool
  | .null => false
  | .bool b => b
  | .num q => decide (q ≠ 0)
  | .str s => decide (s ≠ "")
  | .arr xs => !xs.isEmpty
  | .obj kvs => !kvs.isEmpty

/-- `d.get(k, default)` on a Python dict. -/
def jgetD (kvs : List (String × JVal)) (k : String) (d : JVal) : JVal :=
  match kvs.find? (fun p => p.1 == k) with
  | some p => p.2
  | none => d

/-- `d.get(k)` on a Python dict (default `None`). -/
def jget (kvs : List (String × JVal)) (k : String) : JVal :=
  jgetD kvs k .null

/-- Python `v == s` for a string literal `s`: true only when `v` is that
string (comparing a string with a value of another type is `False`). -/
def JVal.isStrEq (v : JVal) (s : String) : Bool :=
  match v with
  | .str t => t == s
  | _ => false

/-- Truthiness of an optional URL attribute (`None` and `""` are falsy). -/
def optStrTruthy : Option String → Bool
  | none => false
  | some s => decide (s ≠ "")

/-- Truthiness of an optional metadata dict (`None` and `{}` are falsy). -/
def optDictTruthy : Option (List (String × JVal)) → Bool
  | none => false
  | some kvs => !kvs.isEmpty

/-! ### Python string primitives

Implemented over `List Char` so that concrete witnesses evaluate by
`decide` (the core `String` functions do not reduce in the kernel). -/

/-- `l₁` is a prefix of `l₂`. -/
def listPrefixOf : List Char → List Char → Bool
  | [], _ => true
  | _ :: _, [] => false
  | a :: as, b :: bs => a == b && listPrefixOf as bs

/-- `needle` occurs as a contiguous sublist of the second argument. -/
def listContains (needle : List Char) : List Char → Bool
  | [] => needle.isEmpty
  | c :: rest => listPrefixOf needle (c :: rest) || listContains needle rest

/-- Python `needle in haystack` on strings. -/
def strContains (needle haystack : String) : Bool :=
  listContains needle.data haystack.data

/-- Python `str.lower()` (ASCII names and paths). -/
def pyLower (s : String) : String := String.mk (s.data.map Char.toLower)

/-- Lexicographic strict comparison on code points, as Python `<` on
strings. -/
def listLt : List Char → List Char → Bool
  | [], [] => false
  | [], _ :: _ => true
  | _ :: _, [] => false
  | a :: as, b :: bs => a < b || (a == b && listLt as bs)

/-- Split at every occurrence of `c`, as Python `str.split(c)`. -/
def splitOnChar (c : Char) : List Char → List (List Char)
  | [] => [[]]
  | x :: xs =>
    let rest := splitOnChar c xs
    if x == c then [] :: rest
    else
      match rest with
      | r :: rs => (x :: r) :: rs
      | [] => [[x]]

/-- Python `s.split("/")[-1]` (a split result is never empty). -/
def lastSegment (s : String) : String :=
  String.mk ((splitOnChar '/' s.data).getLastD [])

mutual

/-- Python `str(v)` of a JSON value, with `repr` quoting inside
containers; numeric rendering approximates the Python repr (no claim
depends on the exact digits of a rendered number). -/
def JVal.render (asRepr : Bool) : JVal → String
  | .null => "None"
  | .bool true => "True"
  | .bool false => "False"
  | .num q => toString q
  | .str s => if asRepr then "'" ++ s ++ "'" else s
  | .arr xs => "[" ++ JVal.renderItems xs ++ "]"
  | .obj kvs => "\x7b" ++ JVal.renderPairs kvs ++ "\x7d"

def JVal.renderItems : List JVal → String
  | [] => ""
  | [v] => JVal.render true v
  | v :: rest => JVal.render true v ++ ", " ++ JVal.renderItems rest

def JVal.renderPairs : List (String × JVal) → String
  | [] => ""
  | [(k, v)] => "'" ++ k ++ "': " ++ JVal.render true v
  | (k, v) :: rest =>
    "'" ++ k ++ "': " ++ JVal.render true v ++ ", " ++ JVal.renderPairs rest

end

/-- Python `str(v)`. -/
def JVal.pyStr (v : JVal) : String := JVal.render false v

/-! ## AvailabilityMetric (src/metrics/AvailabilityMetric.py) -/

/-- The slice of a `ModelData` snapshot read by `AvailabilityMetric`.
Modelled from the spec: `ModelData` itself is outside the verified
sources; per the spec it exposes `{codeLink, datasetLink, hf_metadata,
github_metadata, dataset_metadata}` as named accessors over the cached
metadata snapshot. -/
structure ModelAvail where
  hfMetadata : Option (List (String × JVal))
  codeLink : Option String
  datasetLink : Option String
  githubMetadata : Option (List (String × JVal))
  datasetMetadata : Option (List (String × JVal))

namespace AvailabilityMetric

/-- `AvailabilityMetric.evaluate`, translated clause by clause from
`src/metrics/AvailabilityMetric.py` lines 17-60. -/
def evaluate (m : ModelAvail) : ℚ :=
  -- hf_meta = model.hf_metadata or {}
  let hfMeta := m.hfMetadata.getD []
  -- has_meaningful_hf = bool(hf_meta.get("downloads") or hf_meta.get("likes"))
  let hasMeaningfulHf := (jget hfMeta "downloads").truthy || (jget hfMeta "likes").truthy
  -- if model.codeLink: total += 1; if model.github_metadata: successful += 1
  let codeApplicable := optStrTruthy m.codeLink
  let codeOk := codeApplicable && optDictTruthy m.githubMetadata
  -- if model.datasetLink: total += 1; if model.dataset_metadata: successful += 1
  let dataApplicable := optStrTruthy m.datasetLink
  let dataOk := dataApplicable && optDictTruthy m.datasetMetadata
  let totalChecks : ℕ := (if codeApplicable then 1 else 0) + (if dataApplicable then 1 else 0)
  let successfulChecks : ℕ := (if codeOk then 1 else 0) + (if dataOk then 1 else 0)
  if totalChecks = 0 then
    if hasMeaningfulHf then 7/10 else 0
  else
    (successfulChecks : ℚ) / (totalChecks : ℚ)

/-- Number of applicable checks, in the spec's words: the links that
exist (code link, dataset link). -/
def applicableChecks (m : ModelAvail) : ℕ :=
  (if optStrTruthy m.codeLink then 1 else 0) +
    (if optStrTruthy m.datasetLink then 1 else 0)

/-- Number of successful checks, in the spec's words: applicable links
whose metadata fetch succeeded. -/
def successfulChecks (m : ModelAvail) : ℕ :=
  (if optStrTruthy m.codeLink && optDictTruthy m.githubMetadata then 1 else 0) +
    (if optStrTruthy m.datasetLink && optDictTruthy m.datasetMetadata then 1 else 0)

/-- HuggingFace signal, in the spec's words: metadata shows nonzero
downloads or likes (a truthy value under either key). -/
def hfSignal (m : ModelAvail) : Bool :=
  (jget (m.hfMetadata.getD []) "downloads").truthy ||
    (jget (m.hfMetadata.getD []) "likes").truthy

/-- The claim's statement of the score, written from the spec sentence:
successes over applicable checks when some check is applicable,
otherwise the 0.7 / 0.0 HuggingFace fallback. -/
def specScore (m : ModelAvail) : ℚ :=
  if 0 < applicableChecks m then
    (successfulChecks m : ℚ) / (applicableChecks m : ℚ)
  else if hfSignal m then 7/10 else 0

end AvailabilityMetric

/-- C2: for every model and every combination of code link
present/absent, dataset link present/absent and fetch success/failure,
`AvailabilityMetric.evaluate` returns successful checks over applicable
checks when at least one of the links exists, and otherwise 0.7 exactly
when HuggingFace metadata shows nonzero downloads or likes, else 0.0;
the denominator is used only when it is positive. -/
theorem availability_evaluate_spec (m : ModelAvail) :
    AvailabilityMetric.evaluate m = AvailabilityMetric.specScore m := by
  unfold AvailabilityMetric.evaluate AvailabilityMetric.specScore
    AvailabilityMetric.applicableChecks AvailabilityMetric.successfulChecks
    AvailabilityMetric.hfSignal
  cases hc : optStrTruthy m.codeLink <;>
    cases hd : optStrTruthy m.datasetLink <;>
    simp [hc, hd]

/-! ## ReproducibilityMetric (src/metrics/ReproducibilityMetric.py) -/

/-- One entry of the GitHub repository tree, as produced by the GitHub
trees API and cached by the metadata fetcher (modelled from the spec:
the fetcher is outside the verified sources; the spec checks demo files
against the repository's file tree by path). -/
structure TreeItem where
  path : String

/-- The GitHub metadata dict as read by `ReproducibilityMetric`:
`gh_meta.get("tree", [])` and `gh_meta.get("clone_url")`. -/
structure GhMeta where
  tree : List TreeItem
  cloneUrl : Option String

/-- The slice of a `ModelData` snapshot read by `ReproducibilityMetric`:
the private `_github_metadata` attribute and the `github_metadata`
property.  `none` models an attribute that is absent, `None`, not a
dict, or an empty (falsy) dict — all of which the selection loop in
`evaluate` skips identically. -/
structure ModelRepro where
  ughMeta : Option GhMeta
  ghMeta : Option GhMeta

/-- Outcome of executing one candidate demo file (`subprocess.run` with
a 30-second timeout inside `_try_execute_demo`). -/
inductive ExecOutcome where
  | exitCode (n : ℤ)
  | timeout
  | raised

/-- External environment of one `ReproducibilityMetric.evaluate` call:
whether `Repo.clone_from` succeeds, the execution outcome of each
candidate demo file found in the clone (at most 5 are attempted), and
whether an unexpected exception escapes inside the outer `try` block. -/
structure ReproEnv where
  cloneOk : Bool
  candidates : List ExecOutcome
  unexpected : Bool

namespace ReproducibilityMetric

/-- The fixed demo-file allowlist `DEMO_FILE_PATTERNS`. -/
def DEMO_FILE_PATTERNS : List String :=
  ["demo.py", "example.py", "main.py", "run.py", "app.py",
   "examples/demo.py", "examples/example.py", "examples/main.py",
   "demo.sh", "run.sh"]

/-- `_has_demo_files`: the tree contains an item whose lowercased path
exactly matches one of the patterns. -/
def hasDemoFiles (gh : GhMeta) : Bool :=
  -- if not tree: return False  (subsumed by `any` on the empty list)
  gh.tree.any (fun item =>
    DEMO_FILE_PATTERNS.any (fun pat => pyLower item.path == pyLower pat))

/-- One candidate execution succeeds iff its exit code is 0; timeouts
and per-file exceptions just move on to the next candidate. -/
def execSucceeds : ExecOutcome → Bool
  | .exitCode n => n == 0
  | .timeout => false
  | .raised => false

/-- `_try_execute_demo`: true iff some attempted candidate exits 0. -/
def tryExecuteDemo (cands : List ExecOutcome) : Bool :=
  cands.any execSucceeds

/-- The metadata-selection prelude of `evaluate`: prefer a truthy dict
in `_github_metadata`, else one in `github_metadata`, else nothing. -/
def ghSel (m : ModelRepro) : Option GhMeta :=
  match m.ughMeta with
  | some gh => some gh
  | none => m.ghMeta

/-- `ReproducibilityMetric.evaluate`, translated from
`src/metrics/ReproducibilityMetric.py` lines 72-132. -/
def evaluate (m : ModelRepro) (env : ReproEnv) : ℚ :=
  match ghSel m with
  | none => 0                                   -- no GitHub metadata → 0.0
  | some gh =>
    if !hasDemoFiles gh then 0                  -- no demo files → 0.0
    else if !optStrTruthy gh.cloneUrl then 1/2  -- demo but no clone URL → 0.5
    else if env.unexpected then 1/2             -- exception during eval → 0.5
    else if env.cloneOk then
      if tryExecuteDemo env.candidates then 1   -- demo executed → 1.0
      else 1/2                                  -- demo failed execution → 0.5
    else 1/2                                    -- clone failed → 0.5

/-- The spec's state machine for reproducibility, written from the
claim's sentence: each case of the process mapped to its terminal
score. -/
def specStateMachine (m : ModelRepro) (env : ReproEnv) : ℚ :=
  match ghSel m with
  | none => 0
  | some gh =>
    if !hasDemoFiles gh then 0
    else if !optStrTruthy gh.cloneUrl then 1/2
    else if env.unexpected then 1/2
    else if !env.cloneOk then 1/2
    else if env.candidates.any execSucceeds then 1
    else 1/2

end ReproducibilityMetric

/-- C1: for every model and environment, `ReproducibilityMetric.evaluate`
returns exactly one of 0, 1/2, 1, and follows the spec's state machine:
no GitHub metadata → 0.0; no demo/example file in the tree → 0.0; demo
but no clone URL → 0.5; clone failure → 0.5; some candidate demo exiting
0 → 1.0; all candidates failing or timing out → 0.5; an unexpected
exception → 0.5. -/
theorem reproducibility_evaluate_spec (m : ModelRepro) (env : ReproEnv) :
    ReproducibilityMetric.evaluate m env =
      ReproducibilityMetric.specStateMachine m env ∧
    (ReproducibilityMetric.evaluate m env = 0 ∨
      ReproducibilityMetric.evaluate m env = 1/2 ∨
      ReproducibilityMetric.evaluate m env = 1) := by
  unfold ReproducibilityMetric.evaluate ReproducibilityMetric.specStateMachine
  constructor
  · cases ReproducibilityMetric.ghSel m with
    | none => rfl
    | some gh =>
      simp only
      split <;> try rfl
      split <;> try rfl
      split <;> try rfl
      unfold ReproducibilityMetric.tryExecuteDemo
      cases h : env.cloneOk <;> simp [h]
  · cases ReproducibilityMetric.ghSel m with
    | none => simp
    | some gh =>
      simp only
      split
      · simp
      · split
        · simp
        · split
          · simp
          · split
            · split <;> simp
            · simp

/-! ## ReviewednessMetric (src/metrics/ReviewednessMetric.py) -/

/-- One pull request object from the GitHub API, restricted to the
fields `_calculate_reviewedness` reads (`pr.get(...)` with the defaults
used there). -/
structure PullRequest where
  mergedAt : Option String
  comments : ℕ
  reviewComments : ℕ
  requestedReviewers : List String
  requestedTeams : List String

/-- The GitHub metadata dict as read by `ReviewednessMetric`:
`github_metadata.get("pull_requests", [])`. -/
structure GhReviewMeta where
  pullRequests : List PullRequest

/-- The slice of a `ModelData` snapshot read by `ReviewednessMetric`.
`githubMetadata = none` models `model.github_metadata` being `None` or
an empty (falsy) dict, which sends `evaluate` to the HuggingFace
heuristic. -/
structure ModelReview where
  githubMetadata : Option GhReviewMeta
  hfMetadata : Option (List (String × JVal))

/-- Numeric value of a metadata field compared against an integer
threshold (`hf_meta.get(k, 0)`); HuggingFace serves numbers under
`likes` / `downloads`, so only numeric (and, as in Python, boolean)
values are modelled as comparable. -/
def getNum (kvs : List (String × JVal)) (k : String) : ℚ :=
  match jgetD kvs k (.num 0) with
  | .num q => q
  | .bool b => if b then 1 else 0
  | _ => 0

namespace ReviewednessMetric

/-- A merged PR counts as reviewed: comments>0, review_comments>0, or a
non-empty requested_reviewers / requested_teams list. -/
def isReviewed (pr : PullRequest) : Bool :=
  decide (0 < pr.comments) || decide (0 < pr.reviewComments) ||
    decide (0 < pr.requestedReviewers.length) ||
    decide (0 < pr.requestedTeams.length)

/-- `_calculate_reviewedness`, translated from
`src/metrics/ReviewednessMetric.py` lines 89-132. -/
def calculateReviewedness (prs : List PullRequest) : ℚ :=
  if prs.isEmpty then 0
  else
    -- merged_prs = [pr for pr in pull_requests if pr.get("merged_at") is not None]
    let merged := prs.filter (fun pr => pr.mergedAt.isSome)
    if merged.isEmpty then 0
    else
      let reviewed := merged.filter isReviewed
      (reviewed.length : ℚ) / (merged.length : ℚ)

/-- `_heuristic_score`: HuggingFace community-engagement fallback used
when no GitHub metadata is available. -/
def heuristicScore (hf : List (String × JVal)) : ℚ :=
  let likes := getNum hf "likes"
  let s1 : ℚ := if 100 < likes then 1/2 else if 30 < likes then 3/10
    else if 10 < likes then 1/10 else 0
  let downloads := getNum hf "downloads"
  let s2 : ℚ := if 50000 < downloads then 2/5 else if 10000 < downloads then 1/5 else 0
  let s3 : ℚ :=
    if (jget hf "library_name").isStrEq "transformers" ||
        (jget hf "library_name").isStrEq "diffusers" then 1/5 else 0
  min 1 (s1 + s2 + s3)

/-- `ReviewednessMetric.evaluate`, translated from
`src/metrics/ReviewednessMetric.py` lines 59-87. -/
def evaluate (m : ModelReview) : ℚ :=
  match m.githubMetadata with
  | none =>
    -- no GitHub metadata → HF heuristic (hf_meta = model.hf_metadata or {})
    heuristicScore (m.hfMetadata.getD [])
  | some gh =>
    if gh.pullRequests.isEmpty then 0   -- no pull requests → 0.0
    else calculateReviewedness gh.pullRequests

/-- The claim's formula, written from the spec sentence: filter to the
merged PRs; when some PR is merged the score is the reviewed count over
the merged count, and with no merged PRs it is 0. -/
def specFraction (prs : List PullRequest) : ℚ :=
  let merged := prs.filter (fun pr => pr.mergedAt.isSome)
  if merged.length = 0 then 0
  else (merged.countP isReviewed : ℚ) / (merged.length : ℚ)

end ReviewednessMetric

/-- C4: for every list of pull requests, `_calculate_reviewedness`
equals the spec's fraction: reviewed merged PRs over merged PRs (a
merged PR is reviewed iff comments>0, review_comments>0, or a non-empty
requested_reviewers / requested_teams list), and 0.0 when the list
contains no merged PR. -/
theorem reviewedness_fraction_spec (prs : List PullRequest) :
    ReviewednessMetric.calculateReviewedness prs =
      ReviewednessMetric.specFraction prs := by
  unfold ReviewednessMetric.calculateReviewedness ReviewednessMetric.specFraction
  by_cases hp : prs.isEmpty
  · rw [List.isEmpty_iff] at hp
    subst hp
    simp
  · simp only [hp, if_false, List.length_eq_zero, ← List.isEmpty_iff,
      List.countP_eq_length_filter]
    rfl

namespace ReviewednessMetric

theorem revHeuristicScore_nonneg (hf : List (String × JVal)) :
    0 ≤ heuristicScore hf := by
  unfold heuristicScore
  dsimp only
  rw [le_min_iff]
  refine ⟨by norm_num, ?_⟩
  split_ifs <;> norm_num

theorem heuristicScore_le_one (hf : List (String × JVal)) :
    heuristicScore hf ≤ 1 := by
  unfold heuristicScore
  dsimp only
  exact min_le_left _ _

theorem calculateReviewedness_bounds (prs : List PullRequest) :
    0 ≤ calculateReviewedness prs ∧ calculateReviewedness prs ≤ 1 := by
  unfold calculateReviewedness
  dsimp only
  split_ifs
  · norm_num
  · norm_num
  · constructor
    · positivity
    · refine div_le_one_of_le₀ ?_ (by positivity)
      exact_mod_cast List.length_filter_le _ _

end ReviewednessMetric

/-- C5 counterexample: a model with no GitHub metadata and no
HuggingFace metadata — "no data at all" — evaluates to 0.0, not to the
-1.0 sentinel the claim asserts. -/
theorem reviewedness_sentinel_counterexample :
    ReviewednessMetric.evaluate ⟨none, none⟩ = 0 ∧ (0 : ℚ) ≠ -1 := by
  constructor
  · norm_num [ReviewednessMetric.evaluate, ReviewednessMetric.heuristicScore,
      getNum, jget, jgetD, JVal.isStrEq]
  · norm_num

/-- C5 amended: `ReviewednessMetric.evaluate` never returns -1.0; with
no GitHub metadata it returns the HuggingFace-engagement heuristic
(which is 0.0 when the HuggingFace metadata carries no signal), with
GitHub metadata but no pull request data it returns 0.0, and its range
is [0.0, 1.0]. -/
theorem reviewedness_sentinel_amended (m : ModelReview) :
    (0 ≤ ReviewednessMetric.evaluate m ∧ ReviewednessMetric.evaluate m ≤ 1) ∧
    (m.githubMetadata = none →
      ReviewednessMetric.evaluate m =
        ReviewednessMetric.heuristicScore (m.hfMetadata.getD [])) ∧
    (∀ gh, m.githubMetadata = some gh → gh.pullRequests = [] →
      ReviewednessMetric.evaluate m = 0) ∧
    ReviewednessMetric.evaluate m ≠ -1 := by
  have hbounds : 0 ≤ ReviewednessMetric.evaluate m ∧
      ReviewednessMetric.evaluate m ≤ 1 := by
    unfold ReviewednessMetric.evaluate
    cases m.githubMetadata with
    | none =>
      exact ⟨ReviewednessMetric.revHeuristicScore_nonneg _,
        ReviewednessMetric.heuristicScore_le_one _⟩
    | some gh =>
      dsimp only
      split_ifs
      · norm_num
      · exact ReviewednessMetric.calculateReviewedness_bounds _
  refine ⟨hbounds, ?_, ?_, by linarith [hbounds.1]⟩
  · intro h
    unfold ReviewednessMetric.evaluate
    rw [h]
  · intro gh hgh hprs
    unfold ReviewednessMetric.evaluate
    rw [hgh]
    simp [hprs]

/-- C5 witness: with GitHub metadata present but an empty pull-request
list, the score is exactly 0.0, and the score is nonnegative. -/
theorem reviewedness_sentinel_amended_witness :
    ReviewednessMetric.evaluate ⟨some ⟨[]⟩, none⟩ = 0 ∧
      0 ≤ ReviewednessMetric.evaluate ⟨some ⟨[]⟩, none⟩ :=
  ⟨(reviewedness_sentinel_amended ⟨some ⟨[]⟩, none⟩).2.2.1 ⟨[]⟩ rfl rfl,
    (reviewedness_sentinel_amended ⟨some ⟨[]⟩, none⟩).1.1⟩

/-! ## TreeScoreMetric (src/metrics/TreeScoreMetric.py) and the
artifact store (src/api/artifact_store.py) -/

/-- The slice of a `ModelData` snapshot read by `TreeScoreMetric`. -/
structure ModelTree where
  hfMetadata : Option (List (String × JVal))

/-- One `*.json` file of the artifact store directory; `content = none`
models a file whose `json.load` raises (`JSONDecodeError` / `IOError`). -/
structure ArtifactFile where
  content : Option JVal

/-- The artifact store directory as `TreeScoreMetric` scans it:
existence of the directory and the parse results of its `*.json` files
in glob order. -/
structure ArtifactStore where
  dirExists : Bool
  files : List ArtifactFile

namespace TreeScoreMetric

/-- `_extract_parent_models`, translated from
`src/metrics/TreeScoreMetric.py` lines 124-185.  `parse` stands for
`json.loads` on the `model_index` sub-document (`none` models a
`JSONDecodeError`). -/
def extractParentModels (parse : String → Option JVal)
    (hf : Option (List (String × JVal))) : List String :=
  match hf with
  | none => []
  | some meta =>
    -- card_data = hf_meta.get("cardData", {}); base_model = card_data.get("base_model")
    let names1 : List String :=
      match jgetD meta "cardData" (.obj []) with
      | .obj card =>
        let bm := jget card "base_model"
        if bm.truthy then
          match bm with
          | .str s => [s]
          | .arr xs =>
            xs.filterMap (fun v => match v with | .str s => some s | _ => none)
          | _ => []
        else []
      | _ => []
    -- base_model_top = hf_meta.get("base_model")
    let names2 : List String :=
      match jget meta "base_model" with
      | .str s =>
        if s = "" then names1
        else if names1.contains s then names1 else names1 ++ [s]
      | _ => names1
    -- model_index_str = hf_meta.get("model_index"); json.loads on it
    match jget meta "model_index" with
    | .str s =>
      if s = "" then names2
      else
        match parse s with
        | some (.obj mi) =>
          ["base_model", "parent_model", "base"].foldl (fun acc key =>
            match mi.find? (fun p => p.1 == key) with
            | some p =>
              match p.2 with
              | .str ps => if acc.contains ps then acc else acc ++ [ps]
              | _ => acc
            | none => acc) names2
        | _ => names2
    | _ => names2

/-- `_is_parent_match`, translated from `src/metrics/TreeScoreMetric.py`
lines 255-301: case-insensitive exact match, substring containment in
either direction, and `org/model` suffix matching. -/
def isParentMatch (artifactName : String) (parentNames : List String) : Bool :=
  let a := pyLower artifactName
  parentNames.any (fun parent =>
    let p := pyLower parent
    a == p || strContains p a || strContains a p ||
      (strContains "/" a &&
        (let am := lastSegment a
         am == p || strContains p am)) ||
      (strContains "/" p &&
        (let pm := lastSegment p
         pm == a || strContains pm a)))

/-- Result of processing one artifact file inside the scan loop of
`_get_parent_scores`: contribute nothing, contribute one score, or
raise past the inner handler (only `JSONDecodeError`/`IOError` are
caught per file), which the outer handler turns into returning the
scores collected so far. -/
inductive ScanStep where
  | skip
  | score (q : ℚ)
  | abort
deriving Repr, DecidableEq

/-- The body of the scan loop of `_get_parent_scores`
(`src/metrics/TreeScoreMetric.py` lines 203-248) for one artifact
file. -/
def processArtifact (parse : String → Option JVal) (parents : List String)
    (f : ArtifactFile) : ScanStep :=
  match f.content with
  | none => .skip                               -- json.load failed → continue
  | some (.obj kvs) =>
    match jgetD kvs "metadata" (.obj []) with
    | .obj md =>
      -- if metadata.get("type") != "model": continue
      if !(jget md "type").isStrEq "model" then .skip
      else
        -- artifact_name = metadata.get("name", ""); if not artifact_name: continue
        let nameV := jgetD md "name" (.str "")
        if !nameV.truthy then .skip
        else
          match nameV with
          | .str artifactName =>
            if isParentMatch artifactName parents then
              let mj0 := jgetD kvs "metadata_json" (.obj [])
              -- if isinstance(metadata_json, str): json.loads, continue on failure
              match (match mj0 with | .str s => parse s | v => some v) with
              | none => .skip
              | some (.obj mjkvs) =>
                -- net_score = metadata_json.get("net_score", 0.0); keep if numeric and > 0
                match jgetD mjkvs "net_score" (.num 0) with
                | .num q => if 0 < q then .score q else .skip
                | .bool b => if b then .score 1 else .skip  -- bool is an int in Python
                | _ => .skip
              | some _ => .skip
            else .skip
          | _ => .abort  -- artifact_name.lower() on a truthy non-string raises
    | _ => .skip                                -- metadata not a dict → continue
  | some _ => .skip                             -- document not a dict → continue

/-- The scan loop of `_get_parent_scores`: files contribute in order;
an uncaught exception stops the scan, and the outer handler returns the
scores collected up to that point. -/
def scanArtifacts (parse : String → Option JVal) (parents : List String) :
    List ArtifactFile → List ℚ
  | [] => []
  | f :: rest =>
    match processArtifact parse parents f with
    | .skip => scanArtifacts parse parents rest
    | .score q => q :: scanArtifacts parse parents rest
    | .abort => []

/-- `_get_parent_scores`, translated from
`src/metrics/TreeScoreMetric.py` lines 187-253. -/
def getParentScores (parse : String → Option JVal) (store : ArtifactStore)
    (parents : List String) : List ℚ :=
  if !store.dirExists then [] else scanArtifacts parse parents store.files

/-- The base-model name substrings of the no-parents heuristic. -/
def BASE_MODELS : List String :=
  ["bert", "gpt", "t5", "roberta", "distilbert", "albert", "electra",
   "bart", "pegasus", "llama", "mistral", "falcon"]

/-- The no-parents heuristic branch of `evaluate` (lines 75-104).  A
non-string `modelId` would raise `AttributeError` at `.lower()` in
Python; the HuggingFace fetcher serves `modelId` as a string, so the
non-string case is mapped to the empty id here. -/
def heuristicFallback (hf : List (String × JVal)) : ℚ :=
  let modelId :=
    match jgetD hf "modelId" (.str "") with
    | .str s => pyLower s
    | _ => ""
  if BASE_MODELS.any (fun b => strContains b modelId) then
    if strContains "distil" modelId || strContains "mini" modelId ||
        strContains "small" modelId then 17/20
    else if ["squad", "glue", "mnli"].any
        (fun d => strContains d (jgetD hf "tags" (.arr [])).pyStr) then 3/4
    else 1/2
  else 0

/-- Python `round(q, 2)`.  At an exact `.005` tie Python rounds the
underlying binary float to even; the repository's 2-decimal averages do
not rely on that tie behavior. -/
def round2 (q : ℚ) : ℚ := (round (q * 100) : ℤ) / 100

/-- `TreeScoreMetric.evaluate`, translated from
`src/metrics/TreeScoreMetric.py` lines 60-122. -/
def evaluate (parse : String → Option JVal) (m : ModelTree)
    (store : ArtifactStore) : ℚ :=
  let parentNames := extractParentModels parse m.hfMetadata
  if parentNames.isEmpty then
    -- no parents → base-model heuristics (hf_meta = model.hf_metadata or {})
    heuristicFallback (m.hfMetadata.getD [])
  else
    let parentScores := getParentScores parse store parentNames
    if parentScores.isEmpty then 0
    else round2 (parentScores.sum / (parentScores.length : ℚ))

/-- Spec predicate: the stored document is a "model" artifact whose
(nonempty, string) name matches one of the parent identifiers. -/
def isMatchingModelDoc (parents : List String)
    (kvs : List (String × JVal)) : Bool :=
  match jgetD kvs "metadata" (.obj []) with
  | .obj md =>
    (jget md "type").isStrEq "model" &&
      (match jgetD md "name" (.str "") with
       | .str nm => decide (nm ≠ "") && isParentMatch nm parents
       | _ => false)
  | _ => false

/-- Spec extraction: the stored `net_score` of the document, kept only
when it is a positive number (Python counts booleans as numbers). -/
def storedNetScorePos (parse : String → Option JVal)
    (kvs : List (String × JVal)) : Option ℚ :=
  match (match jgetD kvs "metadata_json" (.obj []) with
         | .str s => parse s
         | v => some v) with
  | some (.obj mjkvs) =>
    match jgetD mjkvs "net_score" (.num 0) with
    | .num q => if 0 < q then some q else none
    | .bool b => if b then some 1 else none
    | _ => none
  | _ => none

/-- The claim's description of one stored artifact's contribution,
written from the spec sentence: a well-formed stored document of type
"model" whose name matches a parent identifier contributes its stored
`net_score` when that score is positive. -/
def specFileScore (parse : String → Option JVal) (parents : List String)
    (f : ArtifactFile) : Option ℚ :=
  match f.content with
  | some (.obj kvs) =>
    if isMatchingModelDoc parents kvs then storedNetScorePos parse kvs
    else none
  | _ => none

/-- The parent scores as the spec states them: the contributions of the
stored artifact files, in order. -/
def specParentScores (parse : String → Option JVal) (store : ArtifactStore)
    (parents : List String) : List ℚ :=
  if store.dirExists then store.files.filterMap (specFileScore parse parents)
  else []

/-- View of a scan step as an optional score contribution. -/
def ScanStep.toOption : ScanStep → Option ℚ
  | .score q => some q
  | _ => none

theorem specFileScore_eq_process (parse : String → Option JVal)
    (parents : List String) (f : ArtifactFile)
    (h : processArtifact parse parents f ≠ ScanStep.abort) :
    specFileScore parse parents f =
      (processArtifact parse parents f).toOption := by
  obtain ⟨content⟩ := f
  cases content with
  | none => rfl
  | some doc =>
    cases doc <;> try rfl
    case obj kvs =>
    unfold processArtifact at h
    unfold specFileScore processArtifact isMatchingModelDoc
    dsimp only at h ⊢
    cases hmd : jgetD kvs "metadata" (JVal.obj []) <;> try rfl
    case obj md =>
    dsimp only
    simp only [hmd] at h
    cases ht : (jget md "type").isStrEq "model"
    case false => rfl
    case true =>
    simp only [ht] at h
    cases hnm : jgetD md "name" (JVal.str "") <;> dsimp only <;>
      simp only [hnm] at h
    case null => rfl
    case bool b =>
      cases b
      · rfl
      · simp [JVal.truthy] at h
    case num q =>
      by_cases hq : q = 0
      · subst hq
        simp [JVal.truthy, ScanStep.toOption]
      · simp [JVal.truthy, hq] at h
    case arr xs =>
      cases xs with
      | nil => rfl
      | cons x xs => simp [JVal.truthy] at h
    case obj okvs =>
      cases okvs with
      | nil => rfl
      | cons x xs => simp [JVal.truthy] at h
    case str nm =>
    rcases eq_or_ne nm "" with rfl | hne
    · rfl
    · have htr : JVal.truthy (JVal.str nm) = true := by
        simp [JVal.truthy, hne]
      have hd : (decide (nm ≠ "") : Bool) = true := by simp [hne]
      cases hm : isParentMatch nm parents
      case false => simp [htr, hd, ScanStep.toOption]
      case true =>
      simp only [htr, hd, Bool.and_true, Bool.true_and, Bool.not_true,
        Bool.false_eq_true, if_false, if_true]
      unfold storedNetScorePos
      cases hmj : jgetD kvs "metadata_json" (JVal.obj []) <;>
        (try dsimp only; try rfl)
      case str s =>
        cases hp : parse s <;> try rfl
        case some mj =>
          cases mj <;> try rfl
          case obj mjkvs =>
            try dsimp only
            cases hns : jgetD mjkvs "net_score" (JVal.num 0) <;> try rfl
            case num q =>
              by_cases hq : 0 < q <;> simp [hq, ScanStep.toOption]
            case bool b => cases b <;> rfl
      case obj o =>
        try dsimp only
        cases hns : jgetD o "net_score" (JVal.num 0) <;> try rfl
        case num q =>
          by_cases hq : 0 < q <;> simp [hq, ScanStep.toOption]
        case bool b => cases b <;> rfl

theorem scanArtifacts_eq_filterMap (parse : String → Option JVal)
    (parents : List String) (files : List ArtifactFile)
    (h : ∀ f ∈ files, processArtifact parse parents f ≠ ScanStep.abort) :
    scanArtifacts parse parents files =
      files.filterMap (specFileScore parse parents) := by
  induction files with
  | nil => rfl
  | cons f rest ih =>
    have hf := h f (by simp)
    have hrest : ∀ g ∈ rest, processArtifact parse parents g ≠ ScanStep.abort :=
      fun g hg => h g (by simp [hg])
    rw [List.filterMap_cons, specFileScore_eq_process parse parents f hf]
    unfold scanArtifacts
    cases hp : processArtifact parse parents f with
    | skip => simpa [ScanStep.toOption] using ih hrest
    | score q => simpa [ScanStep.toOption] using ih hrest
    | abort => exact absurd hp hf

end TreeScoreMetric

/-- C3: for every model whose metadata declares parent identifiers and
every artifact store whose scan raises no unexpected exception,
`TreeScoreMetric.evaluate` returns the 2-decimal-rounded average of the
positive stored `net_score` values of the stored "model" artifacts whose
name matches a parent identifier (case-insensitive exact match,
substring containment either direction, or org/model suffix match), and
0.0 when no such positive stored score exists. -/
theorem treescore_evaluate_spec (parse : String → Option JVal)
    (m : ModelTree) (store : ArtifactStore)
    (hpar : TreeScoreMetric.extractParentModels parse m.hfMetadata ≠ [])
    (hgood : ∀ f ∈ store.files,
      TreeScoreMetric.processArtifact parse
        (TreeScoreMetric.extractParentModels parse m.hfMetadata) f ≠
        TreeScoreMetric.ScanStep.abort) :
    TreeScoreMetric.evaluate parse m store =
      (let scores := TreeScoreMetric.specParentScores parse store
        (TreeScoreMetric.extractParentModels parse m.hfMetadata)
       if scores = [] then 0
       else TreeScoreMetric.round2 (scores.sum / (scores.length : ℚ))) := by
  have hspec : TreeScoreMetric.getParentScores parse store
      (TreeScoreMetric.extractParentModels parse m.hfMetadata) =
      TreeScoreMetric.specParentScores parse store
        (TreeScoreMetric.extractParentModels parse m.hfMetadata) := by
    unfold TreeScoreMetric.getParentScores TreeScoreMetric.specParentScores
    cases hd : store.dirExists
    · simp
    · simp [TreeScoreMetric.scanArtifacts_eq_filterMap parse _ store.files hgood]
  unfold TreeScoreMetric.evaluate
  simp only [hspec, List.isEmpty_iff]
  rw [if_neg hpar]

/-- C3 witness: with declared parent "bert-base" and two stored matching
model artifacts with net scores 0.80 and 0.60, the tree score is exactly
0.70. -/
theorem treescore_evaluate_spec_witness :
    TreeScoreMetric.evaluate (fun _ => none)
      ⟨some [("cardData", JVal.obj [("base_model", JVal.str "bert-base")])]⟩
      ⟨true,
        [⟨some (JVal.obj
          [("metadata", JVal.obj
            [("type", JVal.str "model"), ("name", JVal.str "bert-base")]),
           ("metadata_json", JVal.obj [("net_score", JVal.num (mkRat 4 5))])])⟩,
         ⟨some (JVal.obj
          [("metadata", JVal.obj
            [("type", JVal.str "model"), ("name", JVal.str "bert-base-v2")]),
           ("metadata_json", JVal.obj [("net_score", JVal.num (mkRat 3 5))])])⟩]⟩ =
      7/10 := by
  rw [treescore_evaluate_spec (fun _ => none) _ _ (by decide) (by decide)]
  have hs : TreeScoreMetric.specParentScores (fun _ => none)
      ⟨true,
        [⟨some (JVal.obj
          [("metadata", JVal.obj
            [("type", JVal.str "model"), ("name", JVal.str "bert-base")]),
           ("metadata_json", JVal.obj [("net_score", JVal.num (mkRat 4 5))])])⟩,
         ⟨some (JVal.obj
          [("metadata", JVal.obj
            [("type", JVal.str "model"), ("name", JVal.str "bert-base-v2")]),
           ("metadata_json", JVal.obj [("net_score", JVal.num (mkRat 3 5))])])⟩]⟩
      (TreeScoreMetric.extractParentModels (fun _ => none)
        (some [("cardData", JVal.obj [("base_model", JVal.str "bert-base")])])) =
      [mkRat 4 5, mkRat 3 5] := by decide
  dsimp only
  rw [hs]
  norm_num [TreeScoreMetric.round2, round_eq, Rat.mkRat_eq_div]
  exact List.cons_ne_nil _ _

/-- `get_stored_artifact` from `src/api/artifact_store.py` lines 22-34:
the store directory is modelled as a list of (filename, parse result)
pairs, where a `none` parse result models a file whose `json.load`
raises `JSONDecodeError`.  The function returns the parsed document only
when the file exists, parses, and is a dict. -/
def get_stored_artifact (files : List (String × Option JVal))
    (artifactId : String) : Option JVal :=
  match files.find? (fun p => p.1 == artifactId ++ ".json") with
  | none => none
  | some (_, none) => none
  | some (_, some v) =>
    match v with
    | .obj kvs => some (.obj kvs)
    | _ => none

namespace TreeScoreMetric

/-- The malformed-artifact kinds named by the spec, as a predicate on a
stored file: unparseable JSON, a non-dict document, a non-dict
`metadata`, a missing (falsy) name, or — for a document that is
well-formed through its name — a stored `net_score` of a non-numeric
type (or a non-dict, non-string `metadata_json`). -/
def malformedArtifact (f : ArtifactFile) : Bool :=
  match f.content with
  | none => true
  | some (.obj kvs) =>
    (match jgetD kvs "metadata" (.obj []) with
     | .obj md =>
       !(jgetD md "name" (.str "")).truthy ||
         (match jgetD md "name" (.str "") with
          | .str _ =>
            (match jgetD kvs "metadata_json" (.obj []) with
             | .obj mjkvs =>
               (match jgetD mjkvs "net_score" (.num 0) with
                | .num _ => false
                | .bool _ => false
                | _ => true)
             | .str _ => false
             | _ => true)
          | _ => false)
     | _ => true)
  | some _ => true

theorem malformedArtifact_skipped (parse : String → Option JVal)
    (parents : List String) (f : ArtifactFile)
    (hm : malformedArtifact f = true) :
    processArtifact parse parents f = ScanStep.skip := by
  unfold malformedArtifact at hm
  unfold processArtifact
  obtain ⟨content⟩ := f
  cases content with
  | none => rfl
  | some doc =>
    cases doc <;> try rfl
    case obj kvs =>
    dsimp only at hm ⊢
    cases hmd : jgetD kvs "metadata" (JVal.obj []) <;> try rfl
    case obj md =>
    simp only [hmd] at hm
    cases htype : (jget md "type").isStrEq "model"
    case false => simp [htype]
    case true =>
    cases hnm : jgetD md "name" (JVal.str "") <;> simp only [hnm] at hm ⊢
    case null => simp [JVal.truthy]
    case bool b =>
      simp only [Bool.or_false] at hm
      simp [hm]
    case num q =>
      simp only [Bool.or_false] at hm
      simp [hm]
    case arr xs =>
      simp only [Bool.or_false] at hm
      simp [hm]
    case obj okvs =>
      simp only [Bool.or_false] at hm
      simp [hm]
    case str nm =>
    rcases eq_or_ne nm "" with rfl | hne
    · simp [JVal.truthy]
    · have htr : JVal.truthy (JVal.str nm) = true := by
        simp [JVal.truthy, hne]
      simp only [htr, Bool.not_true, Bool.false_or] at hm
      cases hpm : isParentMatch nm parents
      case false => simp [htr, hpm]
      case true =>
      cases hmj : jgetD kvs "metadata_json" (JVal.obj []) <;>
        simp only [hmj] at hm ⊢ <;> try dsimp only
      case null => simp [htr, hpm]
      case bool b => simp [htr, hpm]
      case num q => simp [htr, hpm]
      case arr xs => simp [htr, hpm]
      case str s => exact absurd hm (by simp)
      case obj mjkvs =>
      cases hns : jgetD mjkvs "net_score" (JVal.num 0) <;>
        simp only [hns] at hm ⊢ <;> try simp [htr, hpm]
      case num q => exact absurd hm (by simp)
      case bool b => exact absurd hm (by simp)

theorem scanArtifacts_skips (parse : String → Option JVal)
    (parents : List String) (pre post : List ArtifactFile) (f : ArtifactFile)
    (hf : processArtifact parse parents f = ScanStep.skip) :
    scanArtifacts parse parents (pre ++ f :: post) =
      scanArtifacts parse parents (pre ++ post) := by
  induction pre with
  | nil => simp only [List.nil_append, scanArtifacts, hf]
  | cons g rest ih =>
    simp only [List.cons_append, scanArtifacts]
    cases processArtifact parse parents g <;> simp [ih]

end TreeScoreMetric

/-- C8: malformed artifact-store content is skipped, not raised on: a
store file that fails to parse, is not a dict, has a non-dict
`metadata`, a missing name, or a non-numeric stored `net_score`
contributes nothing to the parent-score scan, and deleting such a file
from the store leaves the collected scores unchanged; likewise
`get_stored_artifact` returns `None` (rather than raising) for a file
that is malformed JSON or whose document is not a dict. -/
theorem treescore_malformed_store_robust :
    (∀ (parse : String → Option JVal) (parents : List String)
        (pre post : List ArtifactFile) (f : ArtifactFile),
      TreeScoreMetric.malformedArtifact f = true →
        TreeScoreMetric.scanArtifacts parse parents (pre ++ f :: post) =
          TreeScoreMetric.scanArtifacts parse parents (pre ++ post)) ∧
    (∀ (files : List (String × Option JVal)) (artifactId : String)
        (entry : String × Option JVal),
      files.find? (fun p => p.1 == artifactId ++ ".json") = some entry →
      (entry.2 = none ∨ ∃ v, entry.2 = some v ∧ ∀ kvs, v ≠ JVal.obj kvs) →
      get_stored_artifact files artifactId = none) := by
  constructor
  · intro parse parents pre post f hm
    exact TreeScoreMetric.scanArtifacts_skips parse parents pre post f
      (TreeScoreMetric.malformedArtifact_skipped parse parents f hm)
  · intro files artifactId entry hfind hbad
    unfold get_stored_artifact
    rw [hfind]
    obtain ⟨name, content⟩ := entry
    rcases hbad with hnone | ⟨v, hv, hnotobj⟩
    · simp only at hnone
      rw [hnone]
    · simp only at hv
      rw [hv]
      cases v <;> try rfl
      case obj kvs => exact absurd rfl (hnotobj kvs)

/-- C8 witness: a store holding one matching well-formed artifact (net
score 0.5) plus one unparseable file yields the same scan as without the
bad file, and reading an unparseable artifact id returns `None`. -/
theorem treescore_malformed_store_robust_witness :
    TreeScoreMetric.scanArtifacts (fun _ => none) ["bert-base"]
        [⟨some (JVal.obj
          [("metadata", JVal.obj
            [("type", JVal.str "model"), ("name", JVal.str "bert-base")]),
           ("metadata_json", JVal.obj [("net_score", JVal.num (mkRat 1 2))])])⟩,
         ⟨none⟩] =
      TreeScoreMetric.scanArtifacts (fun _ => none) ["bert-base"]
        [⟨some (JVal.obj
          [("metadata", JVal.obj
            [("type", JVal.str "model"), ("name", JVal.str "bert-base")]),
           ("metadata_json", JVal.obj [("net_score", JVal.num (mkRat 1 2))])])⟩] ∧
    get_stored_artifact [("broken.json", none)] "broken" = none := by
  constructor
  · exact treescore_malformed_store_robust.1 (fun _ => none) ["bert-base"]
      [⟨some (JVal.obj
        [("metadata", JVal.obj
          [("type", JVal.str "model"), ("name", JVal.str "bert-base")]),
         ("metadata_json", JVal.obj [("net_score", JVal.num (mkRat 1 2))])])⟩]
      [] ⟨none⟩ rfl
  · exact treescore_malformed_store_robust.2 [("broken.json", none)] "broken"
      ("broken.json", none) rfl (Or.inl rfl)

/-! ## RampUpMetric (src/metrics/RampUpMetric.py) -/

/-- The slice of a `ModelData` snapshot read by `RampUpMetric`. -/
structure ModelRamp where
  hfMetadata : Option (List (String × JVal))

/-- The LLM collaborator's raw response to the rubric prompt (`none`
models `send_prompt` failing).  Modelled from the spec: the `LLMClient`
is outside the verified sources; per the spec it takes a prompt string
and returns a response string whose first line is expected to parse as
a float, with empty/unparseable responses treated as failure. -/
structure LLMEnv where
  response : Option String

namespace RampUpMetric

/-- `_heuristic_score`, translated from `src/metrics/RampUpMetric.py`
lines 110-147.  A truthy non-dict `cardData` would raise
`AttributeError` at `.get("widget")` in Python; the HuggingFace fetcher
serves `cardData` as a dict, modelled by the `obj` case.  Likewise
iterating a non-list `tags` of a non-string type would raise; non-list
and non-string tags contribute nothing here. -/
def heuristicScore (hf : List (String × JVal)) : ℚ :=
  -- readme length tiers (len(str(hf_meta.get("readme", ""))))
  let s1 : ℚ :=
    if (jget hf "readme").truthy then
      let readmeLen := (jgetD hf "readme" (.str "")).pyStr.length
      if 5000 < readmeLen then 1/5
      else if 1000 < readmeLen then 3/20
      else if 100 < readmeLen then 2/25
      else 0
    else 0
  -- widgetData or cardData.widget
  let widget : Bool :=
    (jget hf "widgetData").truthy ||
      (match jgetD hf "cardData" (.obj []) with
       | .obj card => (jget card "widget").truthy
       | _ => false)
  let s2 : ℚ := if widget then 3/20 else 0
  -- pipeline_tag
  let s3 : ℚ := if (jget hf "pipeline_tag").truthy then 3/25 else 0
  -- popularity thresholds on downloads/likes
  let downloads := getNum hf "downloads"
  let likes := getNum hf "likes"
  let s4 : ℚ :=
    if 10000 < downloads ∨ 50 < likes then 1/5
    else if 1000 < downloads ∨ 10 < likes then 3/25
    else 0
  -- arXiv tags
  let s5 : ℚ :=
    match jgetD hf "tags" (.arr []) with
    | .arr xs =>
      if xs.any (fun t =>
          match t with
          | .str s => strContains "arxiv:" s
          | _ => false) then 2/25
      else 0
    | _ => 0
  min (17/20) (s1 + s2 + s3 + s4 + s5)

/-- `RampUpMetric.evaluate`, translated from
`src/metrics/RampUpMetric.py` lines 15-63.  `extractScore` stands for
`LLMClient.extract_score` on the response (modelled from the spec, see
`LLMEnv`); section extraction and the prompt only shape the LLM input,
which the environment already abstracts. -/
def evaluate (extractScore : Option String → ℚ) (env : LLMEnv)
    (m : ModelRamp) : ℚ :=
  let hf := m.hfMetadata.getD []
  match jget hf "readme" with
  | .str s =>
    if s = "" then heuristicScore hf    -- falsy README → heuristic
    else
      let score := extractScore env.response
      if score = 0 ∧ env.response = none then heuristicScore hf
      else score
  | _ => heuristicScore hf              -- absent / non-string README

theorem rampHeuristicScore_nonneg (hf : List (String × JVal)) :
    0 ≤ heuristicScore hf := by
  unfold heuristicScore
  dsimp only
  rw [le_min_iff]
  refine ⟨by norm_num, ?_⟩
  refine add_nonneg (add_nonneg (add_nonneg (add_nonneg ?_ ?_) ?_) ?_) ?_
  · split_ifs <;> norm_num
  · split_ifs <;> norm_num
  · split_ifs <;> norm_num
  · split_ifs <;> norm_num
  · cases jgetD hf "tags" (JVal.arr [])
    case arr xs =>
      dsimp only
      split_ifs <;> norm_num
    all_goals norm_num

theorem heuristicScore_le (hf : List (String × JVal)) :
    heuristicScore hf ≤ 17/20 := by
  unfold heuristicScore
  dsimp only
  exact min_le_left _ _

end RampUpMetric

/-- C9: for every model whose HuggingFace metadata has no README text
(the `readme` field is absent, not a string, or empty),
`RampUpMetric.evaluate` returns the metadata-signal heuristic score
(README length tiers, widget data, pipeline tag, download/like
popularity, arXiv tags), and that heuristic always lies in
[0.0, 0.85]. -/
theorem rampup_heuristic_fallback (extractScore : Option String → ℚ)
    (env : LLMEnv) (m : ModelRamp)
    (h : ∀ s, jget (m.hfMetadata.getD []) "readme" = JVal.str s → s = "") :
    RampUpMetric.evaluate extractScore env m =
      RampUpMetric.heuristicScore (m.hfMetadata.getD []) ∧
    0 ≤ RampUpMetric.heuristicScore (m.hfMetadata.getD []) ∧
    RampUpMetric.heuristicScore (m.hfMetadata.getD []) ≤ 17/20 := by
  refine ⟨?_, RampUpMetric.rampHeuristicScore_nonneg _,
    RampUpMetric.heuristicScore_le _⟩
  unfold RampUpMetric.evaluate
  dsimp only
  cases hr : jget (m.hfMetadata.getD []) "readme" <;> try rfl
  case str s =>
    have hs := h s hr
    subst hs
    simp

/-- C9 witness: a model with no HuggingFace metadata at all falls back
to the heuristic, which is bounded by 0.85. -/
theorem rampup_heuristic_fallback_witness :
    RampUpMetric.evaluate (fun _ => 0) ⟨none⟩ ⟨none⟩ =
      RampUpMetric.heuristicScore [] ∧
    0 ≤ RampUpMetric.heuristicScore [] ∧
    RampUpMetric.heuristicScore [] ≤ 17/20 :=
  rampup_heuristic_fallback (fun _ => 0) ⟨none⟩ ⟨none⟩
    (fun s hs => by simp [jget, jgetD, List.find?] at hs)

/-! ## run_reproducibility_check (service/app/domain/metrics.py) -/

/-- The slice of a `ModelPackage` (service/app/domain/models.py) read by
`run_reproducibility_check`: the `meta` dict of type `Dict[str, str]`. -/
structure ModelPackage where
  meta : List (String × String)

/-- `meta.get(k)` on a `Dict[str, str]`. -/
def sget (meta : List (String × String)) (k : String) : Option String :=
  (meta.find? (fun p => p.1 == k)).map (fun p => p.2)

/-- Python `a or b` on optional strings: the first operand when truthy
(a non-empty string), else the second. -/
def pyOrStr (a b : Option String) : Option String :=
  match a with
  | some s => if s = "" then b else some s
  | none => b

/-- Outcome of the single `subprocess.run(run_cmd, shell=True, ...)`
call: completion with an exit code and captured output, a
`TimeoutExpired`, or any other exception (including the working-dir
setup failing). -/
inductive ProcOutcome where
  | completed (returncode : ℤ) (stdout stderr : String)
  | timedOut
  | failed

/-- Python `s.strip(chars)` for one character class: drop matching
characters from both ends. -/
def stripBoth (p : Char → Bool) (s : String) : String :=
  String.mk (((s.data.dropWhile p).reverse.dropWhile p).reverse)

/-- The forbidden substrings guarded against before spawning a process:
`"rm "`, `"del "`, `"shutdown"`, `"format"`, and the fork bomb. -/
def FORBIDDEN : List String :=
  ["rm ", "del ", "shutdown", "format", ":()\x7b:|:&\x7d;:"]

/-- `str(run_cmd).strip().strip('"').strip("'")` — whitespace, double
quotes, then single quotes stripped from both ends (`meta` is typed
`Dict[str, str]`, so `str()` is the identity; `str.strip()` also strips
some further Unicode whitespace not modelled here). -/
def normalizeRunCmd (s : String) : String :=
  stripBoth (fun c => c == Char.ofNat 39)
    (stripBoth (fun c => c == Char.ofNat 34)
      (stripBoth Char.isWhitespace s))

/-- `run_reproducibility_check`, translated from
`service/app/domain/metrics.py` lines 15-59. -/
def run_reproducibility_check (pkg : ModelPackage) (env : ProcOutcome) : ℚ :=
  -- run_cmd = meta.get("how_to_run") or meta.get("run") or meta.get("script")
  match pyOrStr (sget pkg.meta "how_to_run")
      (pyOrStr (sget pkg.meta "run") (sget pkg.meta "script")) with
  | none => 0                                   -- if not run_cmd
  | some cmd0 =>
    if cmd0 = "" then 0                         -- if not run_cmd
    else
      let cmd := normalizeRunCmd cmd0
      if FORBIDDEN.any (fun x => strContains x (pyLower cmd)) then 0
      else
        match env with
        | .completed rc out err =>
          if rc = 0 then 1
          -- non-zero but some output, or no Python traceback → partial
          else if out ≠ "" ∨ ¬ strContains "Traceback" err = true then 1/2
          else 0
        | .timedOut => 1/2                      -- TimeoutExpired
        | .failed => 0                          -- any other exception

/-- The claim's guard, written from its words: the effective run command
(after the `or`-chain, the falsy check, and normalization) contains a
forbidden substring, case-insensitively. -/
def forbiddenRunCmd (pkg : ModelPackage) : Bool :=
  match pyOrStr (sget pkg.meta "how_to_run")
      (pyOrStr (sget pkg.meta "run") (sget pkg.meta "script")) with
  | none => false
  | some cmd0 =>
    if cmd0 = "" then false
    else FORBIDDEN.any (fun x => strContains x (pyLower (normalizeRunCmd cmd0)))

/-- C10: `run_reproducibility_check` always returns one of 0, 1/2, 1;
and when the package's run command contains a forbidden substring the
result is 0.0 for every possible subprocess outcome — the result does
not depend on the environment, reflecting that no subprocess is
spawned. -/
theorem run_reproducibility_check_safety (pkg : ModelPackage)
    (env : ProcOutcome) :
    (run_reproducibility_check pkg env = 0 ∨
      run_reproducibility_check pkg env = 1/2 ∨
      run_reproducibility_check pkg env = 1) ∧
    (forbiddenRunCmd pkg = true → run_reproducibility_check pkg env = 0) := by
  unfold run_reproducibility_check forbiddenRunCmd
  cases pyOrStr (sget pkg.meta "how_to_run")
      (pyOrStr (sget pkg.meta "run") (sget pkg.meta "script")) with
  | none => exact ⟨Or.inl rfl, fun h => rfl⟩
  | some cmd0 =>
    dsimp only
    by_cases h0 : cmd0 = ""
    · simp [h0]
    · simp only [h0, if_false]
      by_cases hf : FORBIDDEN.any
          (fun x => strContains x (pyLower (normalizeRunCmd cmd0))) = true
      · simp [hf]
      · simp only [hf]
        refine ⟨?_, fun hc => absurd hc (by simp [hf])⟩
        cases env with
        | completed rc out err =>
          dsimp only
          split_ifs <;> simp
        | timedOut => simp
        | failed => simp

/-- C10 witness: a package whose run command is "rm -rf /" scores 0.0
even in an environment where the process would exit 0. -/
theorem run_reproducibility_check_safety_witness :
    run_reproducibility_check ⟨[("run", "rm -rf /")]⟩
        (ProcOutcome.completed 0 "" "") = 0 ∧
    forbiddenRunCmd ⟨[("run", "rm -rf /")]⟩ = true :=
  ⟨(run_reproducibility_check_safety ⟨[("run", "rm -rf /")]⟩
      (ProcOutcome.completed 0 "" "")).2 (by decide), by decide⟩

/-! ## reviewedness_score (service/app/integrations/github.py) -/

/-- Fuel-driven splitting of a character list at every occurrence of the
separator `c0 :: sepRest` (the fuel only bounds recursion; it is sized
so it never runs out). -/
def splitOnStrGo (c0 : Char) (sepRest : List Char) :
    ℕ → List Char → List (List Char)
  | 0, _ => [[]]
  | _, [] => [[]]
  | fuel+1, c :: rest =>
    if listPrefixOf (c0 :: sepRest) (c :: rest) then
      [] :: splitOnStrGo c0 sepRest fuel (List.drop sepRest.length rest)
    else
      match splitOnStrGo c0 sepRest fuel rest with
      | r :: rs => (c :: r) :: rs
      | [] => [[c]]

/-- Python `s.split(sep)` for a non-empty separator (Python raises on an
empty separator; the callers pass literals). -/
def pySplitStr (sep s : String) : List String :=
  match sep.data with
  | [] => [s]
  | c :: cs => (splitOnStrGo c cs (s.data.length + 1) s.data).map String.mk

/-- Python `s.replace(old, "")` — all occurrences removed. -/
def pyReplaceAll (old s : String) : String :=
  String.join (pySplitStr old s)

/-- Python `a >= b` on strings: lexicographic by code points. -/
def pyStrGe (a b : String) : Bool := !listLt a.data b.data

/-- `_parse_repo_owner_name`, translated from
`service/app/integrations/github.py` lines 29-45. -/
def parseRepoOwnerName (repoUrl : String) : Option (String × String) :=
  let s0 := stripBoth Char.isWhitespace repoUrl
  if !strContains "github.com" s0 then none
  else
    let s1 :=
      if listPrefixOf "git@github.com:".data s0.data then
        (pySplitStr "git@github.com:" s0).getD 1 ""
      else if strContains "github.com/" s0 then
        (pySplitStr "github.com/" s0).getD 1 ""
      else s0
    let s2 := pyReplaceAll ".git" s1
    match pySplitStr "/" s2 with
    | a :: b :: _ => some (a, b)
    | _ => none

/-- One pull request object of the closed-PRs listing, restricted to the
fields the scoring loop reads. -/
structure PRData where
  number : ℕ
  mergedAt : Option String
  requestedReviewers : List String
  commits : Option ℕ

/-- Outcome of one per-PR reviews request: a JSON list of review states,
a 403 (rate limited), or another error (`raise_for_status` raises). -/
inductive ReviewsResp where
  | ok (states : List String)
  | rateLimited
  | httpError

/-- The network environment of one `reviewedness_score` call on a cold
cache: the PR-listing response (`none` models a
`requests.RequestException`, including `raise_for_status` failures and
malformed JSON), each listed PR paired with the outcome of its reviews
request, the `since` cutoff computed from the clock, and the text of
the raised exception. -/
structure GhEnv where
  prsResp : Option (List (PRData × ReviewsResp))
  since : String
  errText : String

/-- The merged-in-window filter:
`pr.get("merged_at") and pr["merged_at"] >= since`. -/
def mergedInWindow (since : String) (p : PRData × ReviewsResp) : Bool :=
  match p.1.mergedAt with
  | some ma => decide (ma ≠ "") && pyStrGe ma since
  | none => false

/-- The review-counting loop, as (reviewed, considered); an HTTP error
on any reviews request escapes the loop (only the outer handler catches
it, discarding the partial counts). -/
def countReviews : List (PRData × ReviewsResp) → Except Unit (ℕ × ℕ)
  | [] => Except.ok (0, 0)
  | (pr, resp) :: rest =>
    match resp with
    | .httpError => Except.error ()
    | .rateLimited =>
      -- rate-limit heuristic: requested reviewers present or >1 commits
      match countReviews rest with
      | Except.ok (r, c) =>
        let commits := match pr.commits with
          | some n => if n = 0 then 1 else n    -- pr.get("commits") or 1
          | none => 1
        Except.ok
          ((if !pr.requestedReviewers.isEmpty ∨ 1 < commits then 1 else 0) + r,
            c + 1)
      | e => e
    | .ok states =>
      match countReviews rest with
      | Except.ok (r, c) =>
        Except.ok
          ((if states.any (fun st => st == "APPROVED") then 1 else 0) + r,
            c + 1)
      | e => e

/-- Python `round(q, 4)` (see `round2` for the tie caveat). -/
def round4 (q : ℚ) : ℚ := (round (q * 10000) : ℤ) / 10000

/-- `reviewedness_score`, translated from
`service/app/integrations/github.py` lines 48-126, for a call on a cold
cache (the TTL cache only replays a previously returned pair). -/
def reviewedness_score (repoUrl : String) (lookbackDays : ℕ)
    (env : GhEnv) : ℚ × String :=
  match parseRepoOwnerName repoUrl with
  | none => (0, "No valid GitHub repository URL found.")
  | some _ =>
    match env.prsResp with
    | none => (0, "GitHub API error: " ++ env.errText)
    | some allPrs =>
      let prs := allPrs.filter (mergedInWindow env.since)
      if prs.isEmpty then (0, "No merged pull requests in lookback window.")
      else
        match countReviews prs with
        | Except.error _ => (0, "GitHub API error: " ++ env.errText)
        | Except.ok (reviewed, considered) =>
          let score : ℚ := (reviewed : ℚ) / ((max considered 1 : ℕ) : ℚ)
          let score2 := if considered < 3 then score * (9/10) else score
          let rationale := toString reviewed ++ " of " ++ toString considered ++
            " merged PRs had at least one APPROVED review in the last " ++
            toString lookbackDays ++ " days."
          let rationale2 := if considered < 3 then
              rationale ++ " (low sample size penalty applied)"
            else rationale
          (round4 score2, rationale2)

/-- C7: `reviewedness_score` returns normally with a (score, rationale)
pair in every environment, and the score is 0.0 with an explanatory
rationale whenever the URL does not parse as a GitHub repository, the
PR-listing request fails, no merged PR falls in the lookback window, or
a reviews request fails mid-loop — network failures never escape the
fetcher. -/
theorem reviewedness_score_error_cases (repoUrl : String)
    (lookbackDays : ℕ) (env : GhEnv) :
    (parseRepoOwnerName repoUrl = none →
      reviewedness_score repoUrl lookbackDays env =
        (0, "No valid GitHub repository URL found.")) ∧
    (∀ own, parseRepoOwnerName repoUrl = some own →
      env.prsResp = none →
        reviewedness_score repoUrl lookbackDays env =
          (0, "GitHub API error: " ++ env.errText)) ∧
    (∀ own allPrs, parseRepoOwnerName repoUrl = some own →
      env.prsResp = some allPrs →
      allPrs.filter (mergedInWindow env.since) = [] →
        reviewedness_score repoUrl lookbackDays env =
          (0, "No merged pull requests in lookback window.")) ∧
    (∀ own allPrs, parseRepoOwnerName repoUrl = some own →
      env.prsResp = some allPrs →
      countReviews (allPrs.filter (mergedInWindow env.since)) =
        Except.error () →
        reviewedness_score repoUrl lookbackDays env =
          (0, "GitHub API error: " ++ env.errText)) := by
  refine ⟨?_, ?_, ?_, ?_⟩
  · intro hp
    unfold reviewedness_score
    rw [hp]
  · intro own hp hn
    unfold reviewedness_score
    rw [hp, hn]
  · intro own allPrs hp hn hf
    unfold reviewedness_score
    rw [hp, hn]
    simp [hf]
  · intro own allPrs hp hn he
    unfold reviewedness_score
    rw [hp, hn]
    dsimp only
    rw [he]
    by_cases hf : (allPrs.filter (mergedInWindow env.since)).isEmpty
    · rw [List.isEmpty_iff] at hf
      rw [hf] at he
      cases he
    · simp [hf]

/-- C7 witness: a non-GitHub URL collapses to the zero score with its
rationale, and a valid repository URL whose PR-listing request fails on
the network also scores 0.0. -/
theorem reviewedness_score_error_cases_witness :
    reviewedness_score "https://example.com/owner/repo" 90
        ⟨none, "2025-07-14T00:00:00Z", "connection reset"⟩ =
      (0, "No valid GitHub repository URL found.") ∧
    reviewedness_score "https://github.com/acme/model" 90
        ⟨none, "2025-07-14T00:00:00Z", "connection reset"⟩ =
      (0, "GitHub API error: connection reset") :=
  ⟨(reviewedness_score_error_cases "https://example.com/owner/repo" 90
      ⟨none, "2025-07-14T00:00:00Z", "connection reset"⟩).1 (by decide),
   (reviewedness_score_error_cases "https://github.com/acme/model" 90
      ⟨none, "2025-07-14T00:00:00Z", "connection reset"⟩).2.1
      ("acme", "model") (by decide) rfl⟩

/-! ## Idempotence of the metric evaluations

Each embedded `evaluate` takes the artifact's metadata snapshot (and,
where the source consults the outside world, an explicit environment:
artifact store, subprocess results, LLM response) and returns only a
score — the embedding carries no mutable state because the source
bodies only read their inputs.  Two successive calls with the same
snapshot and environment are therefore literally the same value. -/

/-- C6: evaluating any metric twice on the same artifact snapshot with
unchanged external metadata yields equal scores, and no call changes
any state visible to the other — `evaluate` is a pure function of the
snapshot (for `ReproducibilityMetric` and `RampUpMetric`, of the
snapshot and the unchanged external environment). -/
theorem metrics_evaluate_idempotent (a : ModelAvail) (r : ModelReview)
    (parse : String → Option JVal) (t : ModelTree) (store : ArtifactStore)
    (extractScore : Option String → ℚ) (llm : LLMEnv) (ru : ModelRamp)
    (re : ModelRepro) (renv : ReproEnv) :
    AvailabilityMetric.evaluate a = AvailabilityMetric.evaluate a ∧
    ReviewednessMetric.evaluate r = ReviewednessMetric.evaluate r ∧
    TreeScoreMetric.evaluate parse t store =
      TreeScoreMetric.evaluate parse t store ∧
    RampUpMetric.evaluate extractScore llm ru =
      RampUpMetric.evaluate extractScore llm ru ∧
    ReproducibilityMetric.evaluate re renv =
      ReproducibilityMetric.evaluate re renv :=
  ⟨rfl, rfl, rfl, rfl, rfl⟩

end ModelHub
